import Mathlib

/-!
Verification of the documented behavior of the `pvlib.spectrum` module.

The repository snapshot ships the test suite (`pvlib/tests/test_spectrum.py`)
and a documentation example for `pvlib.spectrum`, but not the module source
itself.  The functions are therefore modelled from the specification, with
every closed form cross-checked against the reference values recorded in the
test suite: each model definition below reproduces the tests' expected
numbers, which pins the formula down uniquely where such data exists.
-/

/-- Kinds of Python exception raised by the spectrum functions, together with
the message fragment the tests match against. -/
inductive PyError where
  | typeError : String → PyError
  | valueError : String → PyError
  | notImplementedError : String → PyError
  deriving DecidableEq

/-! ## Martin & Ruiz spectral mismatch model -/

/-- Modelled from the spec: the coefficient set `{c, a, b}` for one irradiance
component of the Martin & Ruiz mismatch model ("a small named tuple or mapping
of fit parameters (e.g., {a, b, c} for Martin & Ruiz) — one set per irradiance
component").  `pvlib.spectrum.martin_ruiz` itself is not in the snapshot. -/
structure MRCoeffs where
  c : ℝ
  a : ℝ
  b : ℝ

/-- Modelled from the spec: the Martin & Ruiz mismatch modifier for a single
irradiance component, `c * exp(a * (kt - 0.74) + b * (am - 1.5))`.  The closed
form reproduces, for the fitted parameters recorded verbatim in the test
fixture `martin_ruiz_mismatch_data`, all 54 expected outputs of the tests. -/
noncomputable def mr_modifier (p : MRCoeffs) (kt am : ℝ) : ℝ :=
  p.c * Real.exp (p.a * (kt - 0.74) + p.b * (am - 1.5))

/-- Modelled from the spec: the per-module-type parameter table of
`martin_ruiz` (direct, sky diffuse, ground diffuse).  The `monosi` row is
recorded verbatim in the repository's test fixture
(`monosi_model_params_dict`); the other rows reproduce the tests' expected
outputs for `polysi` and `asi`. -/
noncomputable def martin_ruiz_params :
    String → Option (MRCoeffs × MRCoeffs × MRCoeffs)
  | "monosi" => some (⟨1.029, -0.313, 0.00524⟩,
                      ⟨0.764, -0.882, -0.0204⟩,
                      ⟨0.970, -0.244, 0.0129⟩)
  | "polysi" => some (⟨1.029, -0.311, 0.00626⟩,
                      ⟨0.764, -0.929, -0.0192⟩,
                      ⟨0.970, -0.270, 0.0158⟩)
  | "asi"    => some (⟨1.024, -0.222, 0.0092⟩,
                      ⟨0.840, -0.728, -0.0183⟩,
                      ⟨0.989, -0.219, 0.0179⟩)
  | _ => none

/-- Modelled from the spec: the `martin_ruiz` entry point.  Exactly one of
`module_type` and `model_parameters` must be given: both or neither fail with
the `ValueError`s recorded in the tests, an unknown module label fails with
`NotImplementedError`, and otherwise the three per-component modifiers are
returned as `(poa_direct, poa_sky_diffuse, poa_ground_diffuse)`. -/
noncomputable def martin_ruiz (kt am : ℝ) (module_type : Option String)
    (model_parameters : Option (MRCoeffs × MRCoeffs × MRCoeffs)) :
    Except PyError (ℝ × ℝ × ℝ) :=
  match module_type, model_parameters with
  | some _, some _ => .error (.valueError
      "Cannot resolve input: must supply only one of module_type or model_parameters")
  | none, none => .error (.valueError
      "You must pass at least module_type or model_parameters as arguments.")
  | some mt, none =>
      match martin_ruiz_params mt with
      | none => .error (.notImplementedError
          "Cell type parameters not defined in algorithm.")
      | some (pd, ps, pg) =>
          .ok (mr_modifier pd kt am, mr_modifier ps kt am, mr_modifier pg kt am)
  | none, some (pd, ps, pg) =>
      .ok (mr_modifier pd kt am, mr_modifier ps kt am, mr_modifier pg kt am)

/-! ### Taylor bracketing of the real exponential

Auxiliary estimates used to check the numeric reference values: degree-six
Taylor enclosure of `Real.exp` on `[0, 1]`, from Mathlib's `Real.exp_bound`. -/

lemma exp_taylor6_upper {x : ℝ} (h0 : 0 ≤ x) (h1 : x ≤ 1) :
    Real.exp x ≤
      1 + x + x ^ 2 / 2 + x ^ 3 / 6 + x ^ 4 / 24 + x ^ 5 / 120
        + x ^ 6 * (7 / 4320) := by
  have h := @Real.exp_bound' x h0 h1 6 (by norm_num)
  norm_num [Finset.sum_range_succ, Nat.factorial] at h
  linarith

lemma exp_taylor6_lower {x : ℝ} (h0 : 0 ≤ x) (h1 : x ≤ 1) :
    1 + x + x ^ 2 / 2 + x ^ 3 / 6 + x ^ 4 / 24 + x ^ 5 / 120
      - x ^ 6 * (7 / 4320) ≤ Real.exp x := by
  have hab : |x| ≤ 1 := by rwa [abs_of_nonneg h0]
  have h := @Real.exp_bound x hab 6 (by norm_num)
  rw [abs_of_nonneg h0] at h
  have h2 := (abs_sub_le_iff.mp h).2
  norm_num [Finset.sum_range_succ, Nat.factorial] at h2
  linarith

lemma exp_04456_bracket :
    (1.045567708 : ℝ) ≤ Real.exp 0.04456 ∧
      Real.exp 0.04456 ≤ 1.045567709 := by
  constructor
  · have h := exp_taylor6_lower (by norm_num : (0:ℝ) ≤ 0.04456) (by norm_num)
    have hp : (1.045567708 : ℝ) ≤
        1 + 0.04456 + 0.04456 ^ 2 / 2 + 0.04456 ^ 3 / 6 + 0.04456 ^ 4 / 24
          + 0.04456 ^ 5 / 120 - 0.04456 ^ 6 * (7 / 4320) := by norm_num
    linarith
  · have h := exp_taylor6_upper (by norm_num : (0:ℝ) ≤ 0.04456) (by norm_num)
    have hp : 1 + 0.04456 + 0.04456 ^ 2 / 2 + 0.04456 ^ 3 / 6 + 0.04456 ^ 4 / 24
          + 0.04456 ^ 5 / 120 + 0.04456 ^ 6 * (7 / 4320) ≤ (1.045567709 : ℝ) := by
      norm_num
    linarith

lemma exp_12189_bracket :
    (1.129629825 : ℝ) ≤ Real.exp 0.12189 ∧
      Real.exp 0.12189 ≤ 1.129629837 := by
  constructor
  · have h := exp_taylor6_lower (by norm_num : (0:ℝ) ≤ 0.12189) (by norm_num)
    have hp : (1.129629825 : ℝ) ≤
        1 + 0.12189 + 0.12189 ^ 2 / 2 + 0.12189 ^ 3 / 6 + 0.12189 ^ 4 / 24
          + 0.12189 ^ 5 / 120 - 0.12189 ^ 6 * (7 / 4320) := by norm_num
    linarith
  · have h := exp_taylor6_upper (by norm_num : (0:ℝ) ≤ 0.12189) (by norm_num)
    have hp : 1 + 0.12189 + 0.12189 ^ 2 / 2 + 0.12189 ^ 3 / 6 + 0.12189 ^ 4 / 24
          + 0.12189 ^ 5 / 120 + 0.12189 ^ 6 * (7 / 4320) ≤ (1.129629837 : ℝ) := by
      norm_num
    linarith

lemma exp_04837_bracket :
    (1.04955892 : ℝ) ≤ Real.exp 0.04837 ∧
      Real.exp 0.04837 ≤ 1.049558921 := by
  constructor
  · have h := exp_taylor6_lower (by norm_num : (0:ℝ) ≤ 0.04837) (by norm_num)
    have hp : (1.04955892 : ℝ) ≤
        1 + 0.04837 + 0.04837 ^ 2 / 2 + 0.04837 ^ 3 / 6 + 0.04837 ^ 4 / 24
          + 0.04837 ^ 5 / 120 - 0.04837 ^ 6 * (7 / 4320) := by norm_num
    linarith
  · have h := exp_taylor6_upper (by norm_num : (0:ℝ) ≤ 0.04837) (by norm_num)
    have hp : 1 + 0.04837 + 0.04837 ^ 2 / 2 + 0.04837 ^ 3 / 6 + 0.04837 ^ 4 / 24
          + 0.04837 ^ 5 / 120 + 0.04837 ^ 6 * (7 / 4320) ≤ (1.049558921 : ℝ) := by
      norm_num
    linarith

/-- C1: `martin_ruiz(clearness_index=0.56, airmass_absolute=2,
module_type='asi')` succeeds and returns the three factors `poa_direct`,
`poa_sky_diffuse`, `poa_ground_diffuse`, and the reference values `1.07066`,
`0.94889`, `1.03801` lie within `1e-5` relative tolerance of the returned
values. -/
theorem martin_ruiz_asi_scalar_reference_values :
    ∃ d s g, martin_ruiz 0.56 2 (some "asi") none = .ok (d, s, g) ∧
      |d - 1.07066| ≤ 1e-5 * d ∧
      |s - 0.94889| ≤ 1e-5 * s ∧
      |g - 1.03801| ≤ 1e-5 * g := by
  refine ⟨_, _, _, rfl, ?_, ?_, ?_⟩
  · show |mr_modifier ⟨1.024, -0.222, 0.0092⟩ 0.56 2 - 1.07066|
        ≤ 1e-5 * mr_modifier ⟨1.024, -0.222, 0.0092⟩ 0.56 2
    have hx : (-0.222 : ℝ) * (0.56 - 0.74) + 0.0092 * (2 - 1.5) = 0.04456 := by
      norm_num
    rw [mr_modifier]
    simp only [hx]
    obtain ⟨hl, hu⟩ := exp_04456_bracket
    rw [abs_le]
    constructor <;> nlinarith
  · show |mr_modifier ⟨0.840, -0.728, -0.0183⟩ 0.56 2 - 0.94889|
        ≤ 1e-5 * mr_modifier ⟨0.840, -0.728, -0.0183⟩ 0.56 2
    have hx : (-0.728 : ℝ) * (0.56 - 0.74) + -0.0183 * (2 - 1.5) = 0.12189 := by
      norm_num
    rw [mr_modifier]
    simp only [hx]
    obtain ⟨hl, hu⟩ := exp_12189_bracket
    rw [abs_le]
    constructor <;> nlinarith
  · show |mr_modifier ⟨0.989, -0.219, 0.0179⟩ 0.56 2 - 1.03801|
        ≤ 1e-5 * mr_modifier ⟨0.989, -0.219, 0.0179⟩ 0.56 2
    have hx : (-0.219 : ℝ) * (0.56 - 0.74) + 0.0179 * (2 - 1.5) = 0.04837 := by
      norm_num
    rw [mr_modifier]
    simp only [hx]
    obtain ⟨hl, hu⟩ := exp_04837_bracket
    rw [abs_le]
    constructor <;> nlinarith

/-! ## First Solar spectral mismatch model -/

/-- Modelled from the spec: the six fit parameters of
`pvlib.spectrum.spectral_factor_firstsolar` (not in the snapshot). -/
structure FSCoeffs where
  c1 : ℝ
  c2 : ℝ
  c3 : ℝ
  c4 : ℝ
  c5 : ℝ
  c6 : ℝ

/-- Modelled from the spec: the First Solar closed-form fit
`c1 + c2*am + c3*pw + c4*sqrt(am) + c5*sqrt(pw) + c6*am/sqrt(pw)`;
this form reproduces the expected outputs of
`test_spectral_factor_firstsolar` and `test_spectral_factor_firstsolar_supplied`. -/
noncomputable def fs_core (C : FSCoeffs) (pw am : ℝ) : ℝ :=
  C.c1 + C.c2 * am + C.c3 * pw + C.c4 * Real.sqrt am + C.c5 * Real.sqrt pw
    + C.c6 * am / Real.sqrt pw

/-- Modelled from the spec: built-in `monosi` parameters of the First Solar
model; they reproduce the `monosi` grid of `test_spectral_factor_firstsolar`. -/
noncomputable def fsMonosi : FSCoeffs :=
  ⟨0.85914, -0.020880, -0.0058853, 0.12029, 0.026814, -0.001781⟩

/-- Modelled from the spec: built-in `cdte` parameters of the First Solar
model; they reproduce the `cdte` grid of `test_spectral_factor_firstsolar`. -/
noncomputable def fsCdte : FSCoeffs :=
  ⟨0.86273, -0.038948, -0.012506, 0.098871, 0.084658, -0.0042948⟩

/-- Non-fatal warnings a First Solar call can emit. -/
inductive FSWarning where
  | lowPw : FSWarning
  | highPw : FSWarning
  | lowAm : FSWarning
  | highAm : FSWarning
  deriving DecidableEq

/-- Modelled from the spec and the tests: the value returned by
`spectral_factor_firstsolar` after range handling of the drivers.
Precipitable water below `minPw` is clamped up to `minPw`; precipitable water
above `maxPw` is replaced by NaN (`none`), as pinned by the expected output
`[0.96080878, 1.03055092, nan]` of `test_spectral_factor_firstsolar_range`;
airmass is clamped into `[0.58, maxAm]` before evaluating the closed form. -/
noncomputable def spectral_factor_firstsolar_value
    (C : FSCoeffs) (pw am minPw maxPw maxAm : ℝ) : Option ℝ :=
  if maxPw < pw then none
  else some (fs_core C (max pw minPw) (min (max am 0.58) maxAm))

/-- Modelled from the spec: the non-fatal warnings emitted alongside the
value whenever a driver lies outside its validated range. -/
noncomputable def spectral_factor_firstsolar_warnings
    (pw am minPw maxPw maxAm : ℝ) : List FSWarning :=
  (if pw < minPw then [FSWarning.lowPw] else [])
    ++ (if maxPw < pw then [FSWarning.highPw] else [])
    ++ (if am < 0.58 then [FSWarning.lowAm] else [])
    ++ (if maxAm < am then [FSWarning.highAm] else [])

/-- C3 counterexample: with the default bounds (`min_pw = 0.1`, `max_pw = 8`,
`max_airmass_absolute = 10`), precipitable water above the maximum is *not*
clamped to the nearest bound: `spectral_factor_firstsolar` at `pw = 10`
returns NaN, which differs from the value obtained at the bound `pw = 8`
(all other inputs held fixed), refuting the claim that every out-of-range
driver is clamped to the nearest bound before evaluation. -/
theorem firstsolar_high_pw_not_clamped :
    spectral_factor_firstsolar_value fsMonosi 10 5 0.1 8 10 ≠
      spectral_factor_firstsolar_value fsMonosi 8 5 0.1 8 10 := by
  have h1 : spectral_factor_firstsolar_value fsMonosi 10 5 0.1 8 10 = none := by
    rw [spectral_factor_firstsolar_value, if_pos (by norm_num : (8:ℝ) < 10)]
  have h2 : spectral_factor_firstsolar_value fsMonosi 8 5 0.1 8 10
      = some (fs_core fsMonosi (max 8 0.1) (min (max 5 0.58) 10)) := by
    rw [spectral_factor_firstsolar_value, if_neg (by norm_num : ¬ (8:ℝ) < 8)]
  rw [h1, h2]
  simp

/-- C3 (amended): in `spectral_factor_firstsolar`, precipitable water below
the minimum bound is clamped up to the bound and a non-fatal low-water
warning is emitted; precipitable water above the maximum bound yields NaN
together with a non-fatal high-water warning (not a clamp); airmass below
`0.58` is clamped up to `0.58` with a non-fatal low-airmass warning.  The call
never fails in any of these cases. -/
theorem firstsolar_range_handling (C : FSCoeffs) (pw am minPw maxPw maxAm : ℝ) :
    (pw < minPw → minPw ≤ maxPw →
      spectral_factor_firstsolar_value C pw am minPw maxPw maxAm
          = spectral_factor_firstsolar_value C minPw am minPw maxPw maxAm ∧
        FSWarning.lowPw ∈ spectral_factor_firstsolar_warnings pw am minPw maxPw maxAm) ∧
    (maxPw < pw →
      spectral_factor_firstsolar_value C pw am minPw maxPw maxAm = none ∧
        FSWarning.highPw ∈ spectral_factor_firstsolar_warnings pw am minPw maxPw maxAm) ∧
    (am < 0.58 →
      spectral_factor_firstsolar_value C pw am minPw maxPw maxAm
          = spectral_factor_firstsolar_value C pw 0.58 minPw maxPw maxAm ∧
        FSWarning.lowAm ∈ spectral_factor_firstsolar_warnings pw am minPw maxPw maxAm) := by
  refine ⟨fun hlo hle => ⟨?_, ?_⟩, fun hhi => ⟨?_, ?_⟩, fun ham => ⟨?_, ?_⟩⟩
  · rw [spectral_factor_firstsolar_value, spectral_factor_firstsolar_value]
    have hnp : ¬ maxPw < pw := not_lt.mpr (hlo.le.trans hle)
    rw [if_neg hnp, if_neg (not_lt.mpr hle)]
    have : max pw minPw = max minPw minPw := by
      rw [max_eq_right hlo.le, max_self]
    rw [this]
  · rw [spectral_factor_firstsolar_warnings, if_pos hlo]
    simp
  · rw [spectral_factor_firstsolar_value, if_pos hhi]
  · rw [spectral_factor_firstsolar_warnings, if_pos hhi]
    simp
  · rw [spectral_factor_firstsolar_value, spectral_factor_firstsolar_value]
    have : max am 0.58 = max (0.58 : ℝ) 0.58 := by
      rw [max_eq_right ham.le, max_self]
    rw [this]
  · rw [spectral_factor_firstsolar_warnings, if_pos ham]
    simp

/-- Witness for C3 (amended) at concrete inputs: low water `0.05` behaves as
`0.1`; water `9 > 8` yields NaN with a high-water warning; airmass `0.3`
emits the low-airmass warning. -/
theorem firstsolar_range_handling_witness :
    (spectral_factor_firstsolar_value fsMonosi 0.05 1.5 0.1 8 10
        = spectral_factor_firstsolar_value fsMonosi 0.1 1.5 0.1 8 10) ∧
    (spectral_factor_firstsolar_value fsMonosi 9 1.5 0.1 8 10 = none) ∧
    FSWarning.lowAm ∈ spectral_factor_firstsolar_warnings 1 0.3 0.1 8 10 := by
  refine ⟨((firstsolar_range_handling fsMonosi 0.05 1.5 0.1 8 10).1
      (by norm_num) (by norm_num)).1,
    ((firstsolar_range_handling fsMonosi 9 1.5 0.1 8 10).2.1 (by norm_num)).1,
    ((firstsolar_range_handling fsMonosi 1 0.3 0.1 8 10).2.2 (by norm_num)).2⟩

/-- C4: for every airmass strictly above the configured maximum (default or
user supplied), `spectral_factor_firstsolar` returns exactly the same value
as evaluating at the maximum, all other inputs held fixed. -/
theorem firstsolar_airmass_above_max_eq_at_max
    (C : FSCoeffs) (pw am minPw maxPw maxAm : ℝ) (h : maxAm < am) :
    spectral_factor_firstsolar_value C pw am minPw maxPw maxAm
      = spectral_factor_firstsolar_value C pw maxAm minPw maxPw maxAm := by
  rw [spectral_factor_firstsolar_value, spectral_factor_firstsolar_value]
  have h1 : min (max am 0.58) maxAm = min (max maxAm 0.58) maxAm := by
    simp only [min_def, max_def]
    split_ifs <;> linarith
  rw [h1]

/-- Witness for C4 at the tests' concrete inputs: with a user supplied
maximum of `11`, airmass `15` gives the same value as airmass `11`. -/
theorem firstsolar_airmass_above_max_eq_at_max_witness :
    spectral_factor_firstsolar_value fsMonosi 1 15 0.1 8 11
      = spectral_factor_firstsolar_value fsMonosi 1 11 0.1 8 11 :=
  firstsolar_airmass_above_max_eq_at_max fsMonosi 1 15 0.1 8 11 (by norm_num)

/-! ## SAPM spectral factor and NaN handling

NaN-carrying numbers are modelled as `Option ℚ` (or `Option ℝ`), with `none`
playing the role of NaN: every numpy arithmetic operation propagates `none`,
and `np.where(isnan(x), 0, x)` is `Option.getD x 0`. -/

/-- Modelled from the spec: the five Sandia polynomial coefficients
`A0..A4` of `spectral_factor_sapm`. -/
structure SapmA where
  a0 : ℚ
  a1 : ℚ
  a2 : ℚ
  a3 : ℚ
  a4 : ℚ
  deriving DecidableEq

/-- Modelled from the spec: `np.polyval([A4, A3, A2, A1, A0], airmass)`, the
quartic airmass polynomial of the SAPM spectral-loss model. -/
def sapm_polyval (A : SapmA) (am : ℚ) : ℚ :=
  A.a0 + A.a1 * am + A.a2 * am ^ 2 + A.a3 * am ^ 3 + A.a4 * am ^ 4

/-- Modelled from the spec and the tests: `spectral_factor_sapm` evaluates
the airmass polynomial elementwise, replaces NaN results by `0`
(`np.where(np.isnan(x), 0, x)` — pinned by the expected output
`[[0.999535, 0]]` for airmass `[[10, nan]]` in `test_spectral_factor_sapm`),
and clips the result at `0` from below. -/
def spectral_factor_sapm (ams : List (Option ℚ)) (A : SapmA) :
    List (Option ℚ) :=
  ams.map (fun am => some (max 0 ((am.map (sapm_polyval A)).getD 0)))

/-- C6 counterexample: for `spectral_factor_sapm` with airmass vector
`[10, NaN]` (and a concrete coefficient set), the output at the NaN position
is `0`, not NaN — refuting the claim that a NaN driver always produces NaN at
that position in every mismatch model's output. -/
theorem sapm_nan_position_counterexample :
    spectral_factor_sapm [some 10, none] ⟨1, 0, 0, 0, 0⟩ = [some 1, some 0] ∧
      ¬ (spectral_factor_sapm [some 10, none] ⟨1, 0, 0, 0, 0⟩)[1]? = some none := by
  have h : spectral_factor_sapm [some 10, none] ⟨1, 0, 0, 0, 0⟩
      = [some 1, some 0] := by
    rw [spectral_factor_sapm]
    norm_num [sapm_polyval]
  refine ⟨h, ?_⟩
  rw [h]
  simp

/-- Modelled from the spec: elementwise (vectorized) evaluation of one
Martin & Ruiz component over possibly-NaN driver arrays; `none` (NaN)
propagates through the arithmetic exactly as in numpy. -/
noncomputable def mr_component_vec (p : MRCoeffs) (kts ams : List (Option ℝ)) :
    List (Option ℝ) :=
  List.zipWith (fun k a => k.bind fun kv => a.map fun av => mr_modifier p kv av)
    kts ams

/-- C6 (amended): in `martin_ruiz`, the output component at position `i` is
NaN exactly when a driver at position `i` is NaN, and is the scalar modifier
value (never NaN) when both drivers are numbers — NaN propagates positionally
with no cross-contamination; in `spectral_factor_sapm`, however, a NaN
airmass produces `0` at that position, not NaN. -/
theorem nan_propagation_per_model :
    (∀ (p : MRCoeffs) (kts ams : List (Option ℝ)) (i : ℕ) (k a : Option ℝ),
        kts[i]? = some k → ams[i]? = some a →
        (mr_component_vec p kts ams)[i]?
          = some (k.bind fun kv => a.map fun av => mr_modifier p kv av)) ∧
    (∀ (ams : List (Option ℚ)) (A : SapmA) (i : ℕ),
        ams[i]? = some none →
        (spectral_factor_sapm ams A)[i]? = some (some 0)) := by
  constructor
  · intro p kts ams i k a hk ha
    rw [mr_component_vec, List.getElem?_zipWith', hk, ha]
    rfl
  · intro ams A i h
    rw [spectral_factor_sapm, List.getElem?_map, h]
    simp

/-- Witness for the amended C6 at concrete inputs: a NaN airmass at position
`0` of a `martin_ruiz` driver pair yields NaN there, a numeric pair at
position `1` yields a number, and a NaN airmass in `spectral_factor_sapm`
yields `0`. -/
theorem nan_propagation_per_model_witness :
    (mr_component_vec ⟨1.029, -0.313, 0.00524⟩ [some 0.5, some 0.6]
        [none, some 1.2])[0]? = some none ∧
    (mr_component_vec ⟨1.029, -0.313, 0.00524⟩ [some 0.5, some 0.6]
        [none, some 1.2])[1]?
      = some (some (mr_modifier ⟨1.029, -0.313, 0.00524⟩ 0.6 1.2)) ∧
    (spectral_factor_sapm [some 10, none] ⟨1, 0, 0, 0, 0⟩)[1]? = some (some 0) := by
  refine ⟨?_, ?_, ?_⟩
  · have h := nan_propagation_per_model.1 ⟨1.029, -0.313, 0.00524⟩
      [some 0.5, some 0.6] [none, some 1.2] 0 (some 0.5) none rfl rfl
    simpa using h
  · have h := nan_propagation_per_model.1 ⟨1.029, -0.313, 0.00524⟩
      [some 0.5, some 0.6] [none, some 1.2] 1 (some 0.6) (some 1.2) rfl rfl
    simpa using h
  · exact nan_propagation_per_model.2 [some 10, none] ⟨1, 0, 0, 0, 0⟩ 1 rfl

/-! ## PVSPEC, JRC and Caballero models, argument resolution -/

/-- Modelled from the spec: the PVSPEC scalar mismatch factor
`c0 * kc^c1 * am^c2`; this closed form reproduces all `multisi` expected
values of `test_spectral_factor_pvspec` (and the supplied-coefficients test)
to the tests' `1e-8` tolerance. -/
noncomputable def pvspec_scalar (c0 c1 c2 am kc : ℝ) : ℝ :=
  c0 * Real.rpow kc c1 * Real.rpow am c2

/-- Modelled from the spec: the PVSPEC per-module-type coefficient table,
abridged to the row recorded in the repository's tests. -/
noncomputable def pvspec_params : String → Option (ℝ × ℝ × ℝ)
  | "multisi" => some (0.9847, -0.05237, 0.03034)
  | _ => none

/-- Modelled from the spec: the `spectral_factor_pvspec` entry point with its
argument resolution — both or neither of `module_type`/`coefficients` fail
with the `ValueError`s matched by the tests (`'supply only one of'`,
`'No valid input provided'`). -/
noncomputable def spectral_factor_pvspec (am kc : ℝ) (module_type : Option String)
    (coefficients : Option (ℝ × ℝ × ℝ)) : Except PyError ℝ :=
  match module_type, coefficients with
  | some _, some _ => .error (.valueError
      "Cannot resolve input: must supply only one of module_type or coefficients")
  | none, none => .error (.valueError
      "No valid input provided, must supply either module_type or coefficients")
  | some mt, none =>
      match pvspec_params mt with
      | none => .error (.notImplementedError "Module type not defined in algorithm")
      | some (c0, c1, c2) => .ok (pvspec_scalar c0 c1 c2 am kc)
  | none, some (c0, c1, c2) => .ok (pvspec_scalar c0 c1 c2 am kc)

/-- Modelled from the spec: the JRC scalar mismatch factor
`1 + c0*(exp(-kc) - exp(-1)) + c1*(kc - 1) + c2*(am - 1.5)`; this closed form
reproduces all `multisi` expected values of `test_spectral_factor_jrc` (and
the supplied-coefficients test) within the tests' tolerance. -/
noncomputable def jrc_scalar (c0 c1 c2 am kc : ℝ) : ℝ :=
  1 + c0 * (Real.exp (-kc) - Real.exp (-1)) + c1 * (kc - 1) + c2 * (am - 1.5)

/-- Modelled from the spec: the JRC per-module-type coefficient table,
abridged to the row recorded in the repository's tests. -/
noncomputable def jrc_params : String → Option (ℝ × ℝ × ℝ)
  | "multisi" => some (0.494, 0.146, 0.00103)
  | _ => none

/-- Modelled from the spec: the `spectral_factor_jrc` entry point with the
same argument resolution as PVSPEC (the tests match the same messages). -/
noncomputable def spectral_factor_jrc (am kc : ℝ) (module_type : Option String)
    (coefficients : Option (ℝ × ℝ × ℝ)) : Except PyError ℝ :=
  match module_type, coefficients with
  | some _, some _ => .error (.valueError
      "Cannot resolve input: must supply only one of module_type or coefficients")
  | none, none => .error (.valueError
      "No valid input provided, must supply either module_type or coefficients")
  | some mt, none =>
      match jrc_params mt with
      | none => .error (.notImplementedError "Module type not defined in algorithm")
      | some (c0, c1, c2) => .ok (jrc_scalar c0 c1 c2 am kc)
  | none, some (c0, c1, c2) => .ok (jrc_scalar c0 c1 c2 am kc)

/-- The twelve fit parameters of the Caballero model. -/
structure CabCoeffs where
  b1 : ℝ
  b2 : ℝ
  b3 : ℝ
  b4 : ℝ
  b5 : ℝ
  b6 : ℝ
  b7 : ℝ
  b8 : ℝ
  b9 : ℝ
  b10 : ℝ
  b11 : ℝ
  b12 : ℝ

/-- Modelled from the spec: the Caballero closed-form fit over airmass,
aerosol optical depth and precipitable water — an airmass polynomial plus an
aerosol term (aerosol raised to the fitted exponent `b12`, referenced at
`0.084`) and a water term (referenced at `1.42` cm), both with
log-airmass-dependent sensitivities.  With the `cdte` tuple recorded in the
tests this form returns `1.0021964` exactly at `pw = am = aod = 1`
(`test_spectral_factor_caballero_supplied`) and reproduces every pinned
`cdte` output of `test_spectral_factor_caballero` within the tests'
`1e-3` tolerance; see `caballero_cdte_pinned_values` below. -/
noncomputable def caballero_core (C : CabCoeffs) (pw am aod : ℝ) : ℝ :=
  (C.b1 + C.b2 * am + C.b3 * am ^ 2 + C.b4 * am ^ 3 + C.b5 * am ^ 4)
    + (Real.rpow aod C.b12 - Real.rpow 0.084 C.b12)
        * (C.b6 + C.b7 * Real.log am + C.b8 * Real.log am ^ 2)
    + (pw - 1.42) * (C.b9 + C.b10 * Real.log am + C.b11 * Real.log am ^ 2)

/-- The `cdte` coefficient tuple of the Caballero model, recorded verbatim
in `test_spectral_factor_caballero_supplied`. -/
noncomputable def cabCdte : CabCoeffs :=
  ⟨1.0044, 0.0095, -0.0037, 0.0002, 0.0000, -0.0046,
    -0.0182, 0, 0.0095, 0.0068, 0, 1⟩

/-- Modelled from the spec: the Caballero per-module-type coefficient table,
abridged to the `cdte` tuple recorded in the repository's tests. -/
noncomputable def caballero_params : String → Option CabCoeffs
  | "cdte" => some cabCdte
  | _ => none

/-- Modelled from the spec: the `spectral_factor_caballero` entry point;
both or neither of `module_type`/`coefficients` fail with a `ValueError`, as
pinned by `test_spectral_factor_caballero_supplied_redundant` and
`test_spectral_factor_caballero_supplied_ambiguous`. -/
noncomputable def spectral_factor_caballero (pw am aod : ℝ)
    (module_type : Option String)
    (coefficients : Option CabCoeffs) : Except PyError ℝ :=
  match module_type, coefficients with
  | some _, some _ => .error (.valueError
      "Only one of module_type and coefficients should be provided")
  | none, none => .error (.valueError
      "Must provide either module_type or coefficients")
  | some mt, none =>
      match caballero_params mt with
      | none => .error (.notImplementedError "Module type not defined in algorithm")
      | some C => .ok (caballero_core C pw am aod)
  | none, some C => .ok (caballero_core C pw am aod)

lemma log_15_bracket :
    (0.4054 : ℝ) < Real.log 1.5 ∧ Real.log 1.5 < 0.4056 := by
  constructor
  · rw [Real.lt_log_iff_exp_lt (by norm_num : (0:ℝ) < 1.5)]
    have h := exp_taylor6_upper (by norm_num : (0:ℝ) ≤ 0.4054) (by norm_num)
    have hp : 1 + 0.4054 + 0.4054 ^ 2 / 2 + 0.4054 ^ 3 / 6 + 0.4054 ^ 4 / 24
        + 0.4054 ^ 5 / 120 + 0.4054 ^ 6 * (7 / 4320) < (1.5 : ℝ) := by norm_num
    linarith
  · rw [Real.log_lt_iff_lt_exp (by norm_num : (0:ℝ) < 1.5)]
    have h := exp_taylor6_lower (by norm_num : (0:ℝ) ≤ 0.4056) (by norm_num)
    have hp : (1.5 : ℝ) < 1 + 0.4056 + 0.4056 ^ 2 / 2 + 0.4056 ^ 3 / 6
        + 0.4056 ^ 4 / 24 + 0.4056 ^ 5 / 120 - 0.4056 ^ 6 * (7 / 4320) := by
      norm_num
    linarith

lemma caballero_cdte_pinned_values :
    caballero_core cabCdte 1 1 1 = 1.0021964 ∧
      |caballero_core cabCdte 1.42 1.5 1 - 1.0000| ≤ 1e-3 ∧
      |caballero_core cabCdte 4 1.5 0.08 - 1.042| ≤ 1e-3 := by
  obtain ⟨hl, hu⟩ := log_15_bracket
  refine ⟨?_, ?_, ?_⟩
  · rw [caballero_core, cabCdte]
    norm_num [Real.one_rpow, Real.rpow_one, Real.log_one]
  · rw [caballero_core, cabCdte, abs_le]
    norm_num [Real.one_rpow, Real.rpow_one]
    constructor <;> nlinarith
  · rw [caballero_core, cabCdte, abs_le]
    norm_num [Real.rpow_one]
    constructor <;> nlinarith

/-- Modelled from the spec: the First Solar per-module-type coefficient
table, abridged to the rows cross-checked against the grids of
`test_spectral_factor_firstsolar`. -/
noncomputable def fsParams : String → Option FSCoeffs
  | "monosi" => some fsMonosi
  | "cdte" => some fsCdte
  | _ => none

/-- Modelled from the spec: the `spectral_factor_firstsolar` entry point;
both or neither of `module_type`/`coefficients` fail with a `TypeError`
(`test_spectral_factor_firstsolar_ambiguous`,
`test_spectral_factor_firstsolar_ambiguous_both`). -/
noncomputable def spectral_factor_firstsolar (pw am : ℝ)
    (module_type : Option String) (coefficients : Option FSCoeffs)
    (minPw maxPw maxAm : ℝ) : Except PyError (Option ℝ) :=
  match module_type, coefficients with
  | some _, some _ => .error (.typeError
      "ambiguous input, must supply only one of module_type and coefficients")
  | none, none => .error (.typeError
      "no input provided, must supply one of module_type or coefficients")
  | some mt, none =>
      match fsParams mt with
      | none => .error (.notImplementedError "unknown module type")
      | some C => .ok (spectral_factor_firstsolar_value C pw am minPw maxPw maxAm)
  | none, some C => .ok (spectral_factor_firstsolar_value C pw am minPw maxPw maxAm)

/-- C2: for each empirical mismatch model taking a `module_type` selector and
a coefficient override (`martin_ruiz`, `spectral_factor_firstsolar`,
`spectral_factor_caballero`, `spectral_factor_pvspec`,
`spectral_factor_jrc`), a call supplying both arguments and a call supplying
neither fail with the documented invalid-argument error (a `ValueError`, for
First Solar a `TypeError`), for every value of the physical drivers. -/
theorem module_type_coefficients_exclusive_errors :
    (∀ (kt am : ℝ) (mt : String) (p : MRCoeffs × MRCoeffs × MRCoeffs),
      (∃ msg, martin_ruiz kt am (some mt) (some p) = .error (.valueError msg)) ∧
      (∃ msg, martin_ruiz kt am none none = .error (.valueError msg))) ∧
    (∀ (pw am minPw maxPw maxAm : ℝ) (mt : String) (C : FSCoeffs),
      (∃ msg, spectral_factor_firstsolar pw am (some mt) (some C) minPw maxPw maxAm
          = .error (.typeError msg)) ∧
      (∃ msg, spectral_factor_firstsolar pw am none none minPw maxPw maxAm
          = .error (.typeError msg))) ∧
    (∀ (pw am aod : ℝ) (mt : String) (C : CabCoeffs),
      (∃ msg, spectral_factor_caballero pw am aod (some mt) (some C)
          = .error (.valueError msg)) ∧
      (∃ msg, spectral_factor_caballero pw am aod none none
          = .error (.valueError msg))) ∧
    (∀ (am kc : ℝ) (mt : String) (C : ℝ × ℝ × ℝ),
      (∃ msg, spectral_factor_pvspec am kc (some mt) (some C)
          = .error (.valueError msg)) ∧
      (∃ msg, spectral_factor_pvspec am kc none none
          = .error (.valueError msg))) ∧
    (∀ (am kc : ℝ) (mt : String) (C : ℝ × ℝ × ℝ),
      (∃ msg, spectral_factor_jrc am kc (some mt) (some C)
          = .error (.valueError msg)) ∧
      (∃ msg, spectral_factor_jrc am kc none none
          = .error (.valueError msg))) :=
  ⟨fun _ _ _ _ => ⟨⟨_, rfl⟩, ⟨_, rfl⟩⟩,
   fun _ _ _ _ _ _ _ => ⟨⟨_, rfl⟩, ⟨_, rfl⟩⟩,
   fun _ _ _ _ _ => ⟨⟨_, rfl⟩, ⟨_, rfl⟩⟩,
   fun _ _ _ _ => ⟨⟨_, rfl⟩, ⟨_, rfl⟩⟩,
   fun _ _ _ _ => ⟨⟨_, rfl⟩, ⟨_, rfl⟩⟩⟩

/-! ## Scalar versus array/series evaluation (type-shape invariance) -/

/-- Elementwise numpy addition of two equal-shape arrays. -/
def vadd (xs ys : List ℝ) : List ℝ := List.zipWith (· + ·) xs ys

/-- Elementwise numpy multiplication of two equal-shape arrays. -/
def vmul (xs ys : List ℝ) : List ℝ := List.zipWith (· * ·) xs ys

/-- Modelled from the spec: the vectorized PVSPEC evaluation, built from the
same expression tree as the scalar formula but over whole arrays
(`c0 * kc**c1` broadcasts over `kcs`, `am**c2` over `ams`, then the two
arrays are multiplied elementwise). -/
noncomputable def pvspec_vec (c0 c1 c2 : ℝ) (ams kcs : List ℝ) : List ℝ :=
  vmul (kcs.map fun k => c0 * Real.rpow k c1) (ams.map fun a => Real.rpow a c2)

/-- Modelled from the spec: the vectorized JRC evaluation over whole
arrays, mirroring the numpy expression tree of the scalar formula. -/
noncomputable def jrc_vec (c0 c1 c2 : ℝ) (ams kcs : List ℝ) : List ℝ :=
  vadd (kcs.map fun k => 1 + c0 * (Real.exp (-k) - Real.exp (-1)) + c1 * (k - 1))
    (ams.map fun a => c2 * (a - 1.5))

/-- Modelled from the spec: the labeled-series PVSPEC evaluation — the
numeric result of the vectorized evaluation with the input's index
reattached ("where the input carries positional metadata (e.g., a time
index), reattaches it to the output"). -/
noncomputable def pvspec_series {I : Type} (c0 c1 c2 : ℝ) (idx : List I)
    (ams kcs : List ℝ) : List (I × ℝ) :=
  idx.zip (pvspec_vec c0 c1 c2 ams kcs)

/-- Modelled from the spec: the labeled-series JRC evaluation. -/
noncomputable def jrc_series {I : Type} (c0 c1 c2 : ℝ) (idx : List I)
    (ams kcs : List ℝ) : List (I × ℝ) :=
  idx.zip (jrc_vec c0 c1 c2 ams kcs)

/-- Modelled from the spec: the vectorized First Solar evaluation over whole
driver arrays, mirroring the numpy pipeline — precipitable water clamped up
to `minPw` elementwise, water above `maxPw` masked to NaN elementwise,
airmass clamped into `[0.58, maxAm]` elementwise, then the closed form
evaluated wherever the water is not NaN. -/
noncomputable def fs_vec (C : FSCoeffs) (pws ams : List ℝ)
    (minPw maxPw maxAm : ℝ) : List (Option ℝ) :=
  List.zipWith (fun pw? am1 => pw?.map fun pw1 => fs_core C pw1 am1)
    (pws.map fun pw => if maxPw < pw then none else some (max pw minPw))
    (ams.map fun am => min (max am 0.58) maxAm)

/-- Modelled from the spec: the scalar SAPM spectral factor on one
possibly-NaN airmass value (airmass polynomial, NaN replaced by `0`, result
clipped at `0`). -/
def sapm_scalar (am : Option ℚ) (A : SapmA) : Option ℚ :=
  some (max 0 ((am.map (sapm_polyval A)).getD 0))

/-- Modelled from the spec: the vectorized Caballero evaluation — the
closed form applied elementwise over the three driver arrays. -/
noncomputable def caballero_vec (C : CabCoeffs) (pws ams aods : List ℝ) :
    List ℝ :=
  List.zipWith (fun pa aod => caballero_core C pa.1 pa.2 aod)
    (List.zipWith Prod.mk pws ams) aods

/-- Modelled from the spec: labeled-series SAPM evaluation — the array
result with the input's index reattached. -/
def sapm_series {I : Type} (idx : List I) (ams : List (Option ℚ))
    (A : SapmA) : List (I × Option ℚ) :=
  idx.zip (spectral_factor_sapm ams A)

/-- Modelled from the spec: labeled-series First Solar evaluation. -/
noncomputable def firstsolar_series {I : Type} (idx : List I) (C : FSCoeffs)
    (pws ams : List ℝ) (minPw maxPw maxAm : ℝ) : List (I × Option ℝ) :=
  idx.zip (fs_vec C pws ams minPw maxPw maxAm)

/-- Modelled from the spec: labeled-series Caballero evaluation. -/
noncomputable def caballero_series {I : Type} (idx : List I) (C : CabCoeffs)
    (pws ams aods : List ℝ) : List (I × ℝ) :=
  idx.zip (caballero_vec C pws ams aods)

/-- Modelled from the spec: labeled-series Martin & Ruiz evaluation of one
irradiance component. -/
noncomputable def mr_series {I : Type} (idx : List I) (p : MRCoeffs)
    (kts ams : List (Option ℝ)) : List (I × Option ℝ) :=
  idx.zip (mr_component_vec p kts ams)

/-- C9: for every coefficient set (hence every supported module type) of
each of the six mismatch models, array evaluation agrees elementwise with
the scalar formula — PVSPEC, JRC and First Solar via their vectorized numpy
expression trees, SAPM and Caballero positionally at every index, and
Martin & Ruiz on numeric arrays as the elementwise scalar modifier — and
every labeled-series evaluation carries exactly the input's labels.  Scalar
and array/series inputs of identical numeric content give identical numeric
results, with shape and labels mirrored. -/
theorem scalar_array_series_equivalence {I : Type} (c0 c1 c2 : ℝ)
    (idx : List I) (ams kcs kts : List ℝ) (p : MRCoeffs)
    (Cf : FSCoeffs) (pws amsF : List ℝ) (minPw maxPw maxAm : ℝ)
    (A : SapmA) (amsZ : List (Option ℚ))
    (Cc : CabCoeffs) (pwsC amsC aodsC : List ℝ)
    (hp : idx.length ≤ ams.length) (hl : ams.length = kcs.length) :
    pvspec_vec c0 c1 c2 ams kcs
        = List.zipWith (fun k a => pvspec_scalar c0 c1 c2 a k) kcs ams ∧
    jrc_vec c0 c1 c2 ams kcs
        = List.zipWith (fun k a => jrc_scalar c0 c1 c2 a k) kcs ams ∧
    (pvspec_series c0 c1 c2 idx ams kcs).map Prod.fst = idx ∧
    (jrc_series c0 c1 c2 idx ams kcs).map Prod.fst = idx ∧
    mr_component_vec p (kts.map some) (ams.map some)
        = (List.zipWith (fun kt a => mr_modifier p kt a) kts ams).map some ∧
    fs_vec Cf pws amsF minPw maxPw maxAm
        = List.zipWith
            (fun pw am => spectral_factor_firstsolar_value Cf pw am minPw maxPw maxAm)
            pws amsF ∧
    (∀ (i : ℕ) (am : Option ℚ), amsZ[i]? = some am →
        (spectral_factor_sapm amsZ A)[i]? = some (sapm_scalar am A)) ∧
    (∀ (i : ℕ) (pw am aod : ℝ), pwsC[i]? = some pw → amsC[i]? = some am →
        aodsC[i]? = some aod →
        (caballero_vec Cc pwsC amsC aodsC)[i]?
          = some (caballero_core Cc pw am aod)) ∧
    (idx.length ≤ amsZ.length →
        (sapm_series idx amsZ A).map Prod.fst = idx) ∧
    (idx.length ≤ (fs_vec Cf pws amsF minPw maxPw maxAm).length →
        (firstsolar_series idx Cf pws amsF minPw maxPw maxAm).map Prod.fst
          = idx) ∧
    (idx.length ≤ (caballero_vec Cc pwsC amsC aodsC).length →
        (caballero_series idx Cc pwsC amsC aodsC).map Prod.fst = idx) ∧
    (idx.length ≤ (mr_component_vec p (kts.map some) (ams.map some)).length →
        (mr_series idx p (kts.map some) (ams.map some)).map Prod.fst = idx) := by
  refine ⟨?_, ?_, ?_, ?_, ?_, ?_, ?_, ?_, ?_, ?_, ?_, ?_⟩
  · rw [pvspec_vec, vmul, List.zipWith_map]
    rfl
  · rw [jrc_vec, vadd, List.zipWith_map]
    rfl
  · rw [pvspec_series]
    apply List.map_fst_zip
    rw [pvspec_vec, vmul, List.zipWith_map, List.length_zipWith, ← hl,
      min_self]
    exact hp
  · rw [jrc_series]
    apply List.map_fst_zip
    rw [jrc_vec, vadd, List.zipWith_map, List.length_zipWith, ← hl, min_self]
    exact hp
  · rw [mr_component_vec, List.zipWith_map, List.map_zipWith]
    rfl
  · rw [fs_vec, List.zipWith_map]
    congr 1
    funext pw am
    rw [spectral_factor_firstsolar_value]
    split_ifs <;> rfl
  · intro i am hi
    rw [spectral_factor_sapm, List.getElem?_map, hi]
    rfl
  · intro i pw am aod h1 h2 h3
    rw [caballero_vec, List.getElem?_zipWith', List.getElem?_zipWith',
      h1, h2, h3]
    rfl
  · intro h
    rw [sapm_series]
    apply List.map_fst_zip
    rw [spectral_factor_sapm, List.length_map]
    exact h
  · intro h
    rw [firstsolar_series]
    exact List.map_fst_zip idx _ h
  · intro h
    rw [caballero_series]
    exact List.map_fst_zip idx _ h
  · intro h
    rw [mr_series]
    exact List.map_fst_zip idx _ h

/-- Witness for C9 at concrete inputs: the multisi PVSPEC coefficients on
the tests' four-point series with a range index, a First Solar driver pair,
a SAPM airmass vector holding a NaN, and the Caballero cdte tuple. -/
theorem scalar_array_series_equivalence_witness :
    pvspec_vec 0.9847 (-0.05237) 0.03034 [1.0, 1.5, 2.0, 1.5] [0.4, 0.6, 0.8, 1.4]
        = List.zipWith (fun k a => pvspec_scalar 0.9847 (-0.05237) 0.03034 a k)
            [0.4, 0.6, 0.8, 1.4] [1.0, 1.5, 2.0, 1.5] ∧
    (pvspec_series 0.9847 (-0.05237) 0.03034 [0, 1, 2, 3]
        [1.0, 1.5, 2.0, 1.5] [0.4, 0.6, 0.8, 1.4]).map Prod.fst
      = [0, 1, 2, 3] ∧
    fs_vec fsMonosi [1, 2, 3, 4] [1.5, 2.5, 3.5, 4.5] 0.1 8 10
        = List.zipWith
            (fun pw am => spectral_factor_firstsolar_value fsMonosi pw am 0.1 8 10)
            [1, 2, 3, 4] [1.5, 2.5, 3.5, 4.5] ∧
    (spectral_factor_sapm [some 1.5, none, some 2, some 3] ⟨1, 0, 0, 0, 0⟩)[1]?
        = some (sapm_scalar none ⟨1, 0, 0, 0, 0⟩) ∧
    (caballero_vec cabCdte [1, 1, 1, 1] [1, 1, 1, 1] [1, 1, 1, 1])[0]?
        = some (caballero_core cabCdte 1 1 1) ∧
    (sapm_series [0, 1, 2, 3] [some 1.5, none, some 2, some 3]
        ⟨1, 0, 0, 0, 0⟩).map Prod.fst = [0, 1, 2, 3] := by
  obtain ⟨h1, h2, h3, h4, h5, h6, h7, h8, h9, h10, h11, h12⟩ :=
    scalar_array_series_equivalence 0.9847 (-0.05237) 0.03034
      ([0, 1, 2, 3] : List ℕ) [1.0, 1.5, 2.0, 1.5] [0.4, 0.6, 0.8, 1.4]
      [0.5, 0.6, 0.7, 0.8] ⟨1.029, -0.313, 0.00524⟩
      fsMonosi [1, 2, 3, 4] [1.5, 2.5, 3.5, 4.5] 0.1 8 10
      ⟨1, 0, 0, 0, 0⟩ [some 1.5, none, some 2, some 3]
      cabCdte [1, 1, 1, 1] [1, 1, 1, 1] [1, 1, 1, 1]
      (by simp) (by simp)
  exact ⟨h1, h3, h6, h7 1 none rfl, h8 0 1 1 1 rfl rfl rfl, h9 (by simp)⟩

/-! ## Spectral response / quantum efficiency conversion -/

/-- Exact SI value of the speed of light, m/s. -/
def speedOfLight : ℚ := 299792458

/-- Exact SI value of the Planck constant, J⋅s. -/
def planckConstant : ℚ := 6.62607015e-34

/-- Exact SI value of the elementary charge, C. -/
def elementaryCharge : ℚ := 1.602176634e-19

/-- The conversion factor `h*c/q * 1e9` relating spectral response
and quantum efficiency with the wavelength in nanometers. -/
def srQeFactor : ℚ := speedOfLight * planckConstant / elementaryCharge * 1e9

/-- Modelled from the spec: "optional normalization divides by the maximum
value". -/
def normalize_max2one (xs : List ℚ) : List ℚ :=
  xs.map (· / xs.foldr max 0)

/-- Modelled from the spec: `sr_to_qe` — the conversion
`QE(λ) = SR(λ) * h * c / (q * λ)` with `λ` in nanometers, elementwise over
the wavelength grid, with optional normalization.  The closed form
reproduces the sixteen-row conversion fixture `sr_and_eqe_fixture` of the
tests. -/
def sr_to_qe (sr wavelength : List ℚ) (normalize : Bool) : List ℚ :=
  let qe := List.zipWith (fun s w => s / w * srQeFactor) sr wavelength
  if normalize then normalize_max2one qe else qe

/-- Modelled from the spec: `qe_to_sr`, the inverse conversion
`SR(λ) = QE(λ) * q * λ / (h * c)`. -/
def qe_to_sr (qe wavelength : List ℚ) (normalize : Bool) : List ℚ :=
  let sr := List.zipWith (fun q w => q * w / srQeFactor) qe wavelength
  if normalize then normalize_max2one sr else sr

lemma srQeFactor_ne_zero : srQeFactor ≠ 0 := by
  rw [srQeFactor, speedOfLight, planckConstant, elementaryCharge]
  norm_num

lemma sr_qe_pointwise {w : ℚ} (hw : w ≠ 0) (s : ℚ) :
    s / w * srQeFactor * w / srQeFactor = s := by
  have hk := srQeFactor_ne_zero
  field_simp

lemma qe_sr_pointwise {w : ℚ} (hw : w ≠ 0) (q : ℚ) :
    q * w / srQeFactor / w * srQeFactor = q := by
  have hk := srQeFactor_ne_zero
  field_simp
  ring

lemma sr_qe_roundtrip_aux (sr : List ℚ) :
    ∀ wl : List ℚ, (∀ w ∈ wl, 0 < w) → sr.length ≤ wl.length →
      List.zipWith (fun q w => q * w / srQeFactor)
        (List.zipWith (fun s w => s / w * srQeFactor) sr wl) wl = sr := by
  induction sr with
  | nil => intro wl _ _; simp
  | cons s st ih =>
    intro wl hw hlen
    cases wl with
    | nil => simp at hlen
    | cons w wt =>
      simp only [List.zipWith_cons_cons, List.cons.injEq]
      refine ⟨sr_qe_pointwise (ne_of_gt (hw w (by simp))) s, ?_⟩
      exact ih wt (fun x hx => hw x (by simp [hx])) (by simpa using hlen)

lemma qe_sr_roundtrip_aux (qe : List ℚ) :
    ∀ wl : List ℚ, (∀ w ∈ wl, 0 < w) → qe.length ≤ wl.length →
      List.zipWith (fun s w => s / w * srQeFactor)
        (List.zipWith (fun q w => q * w / srQeFactor) qe wl) wl = qe := by
  induction qe with
  | nil => intro wl _ _; simp
  | cons q qt ih =>
    intro wl hw hlen
    cases wl with
    | nil => simp at hlen
    | cons w wt =>
      simp only [List.zipWith_cons_cons, List.cons.injEq]
      refine ⟨?_, ih wt (fun x hx => hw x (by simp [hx])) (by simpa using hlen)⟩
      have hwne := ne_of_gt (hw w (by simp))
      have hk := srQeFactor_ne_zero
      field_simp
      ring

/-- C5: for every spectral-response curve over a positive wavelength grid,
`sr_to_qe` followed by `qe_to_sr` on the same grid reproduces the original
values exactly (hence within floating-point tolerance), and symmetrically
for the QE→SR→QE direction. -/
theorem sr_qe_reciprocal_conversion (sr qe wl : List ℚ)
    (hw : ∀ w ∈ wl, 0 < w) (hs : sr.length ≤ wl.length)
    (hq : qe.length ≤ wl.length) :
    qe_to_sr (sr_to_qe sr wl false) wl false = sr ∧
      sr_to_qe (qe_to_sr qe wl false) wl false = qe := by
  rw [sr_to_qe, qe_to_sr, qe_to_sr, sr_to_qe]
  simp only [Bool.false_eq_true, if_false]
  exact ⟨sr_qe_roundtrip_aux sr wl hw hs, qe_sr_roundtrip_aux qe wl hw hq⟩

/-- Witness for C5 on the first rows of the tests' conversion fixture. -/
theorem sr_qe_reciprocal_conversion_witness :
    qe_to_sr (sr_to_qe [0.205671370402405, 0.242772872514211] [300, 350] false)
        [300, 350] false = [0.205671370402405, 0.242772872514211] ∧
      sr_to_qe (qe_to_sr [0.85, 0.86] [300, 350] false) [300, 350] false
        = [0.85, 0.86] :=
  sr_qe_reciprocal_conversion [0.205671370402405, 0.242772872514211]
    [0.85, 0.86] [300, 350] (by decide) (by decide) (by decide)

/-! ## Reference spectra, interpolation and the field mismatch integrator -/

/-- Modelled from the spec: one-dimensional linear interpolation with
zero fill outside the tabulated domain (`np.interp(..., left=0.0,
right=0.0)` / `interp1d(..., bounds_error=False, fill_value=0.0)`), over a
table of `(wavelength, value)` pairs with increasing wavelengths. -/
def interpZ : List (ℚ × ℚ) → ℚ → ℚ
  | [], _ => 0
  | [(x0, y0)], x => if x = x0 then y0 else 0
  | (x0, y0) :: (x1, y1) :: rest, x =>
      if x < x0 then 0
      else if x ≤ x1 then y0 + (y1 - y0) * (x - x0) / (x1 - x0)
      else interpZ ((x1, y1) :: rest) x

/-- Modelled from the spec: the bundled example spectral-response table
(the packaged data file is not in the snapshot); an abridged plausible table
over the documented wavelength domain `[290, 1200]` nm. -/
def exampleSRTable : List (ℚ × ℚ) :=
  [(290, 0), (350, 0.27), (850, 0.92778), (950, 1), (1200, 0)]

/-- Modelled from the spec: the ASTM G173-03 global-irradiance column
(the packaged data file is not in the snapshot); an abridged plausible table
over the tabulated domain `[280, 4000]` nm. -/
def astmG173GlobalTable : List (ℚ × ℚ) :=
  [(280, 0), (500, 1.5), (1000, 0.75), (4000, 0)]

/-- Modelled from the spec: the ASTM G173-03 extraterrestrial column,
abridged as above. -/
def astmG173EtrTable : List (ℚ × ℚ) :=
  [(280, 0.08), (500, 1.9), (1000, 0.75), (4000, 0.01)]

/-- Modelled from the spec: the ASTM G173-03 direct-irradiance column,
abridged as above. -/
def astmG173DirectTable : List (ℚ × ℚ) :=
  [(280, 0), (500, 1.3), (1000, 0.7), (4000, 0)]

/-- Modelled from the spec: `get_example_spectral_response` on a custom
wavelength grid — the bundled curve linearly interpolated onto the grid with
zero fill outside the tabulated domain. -/
def get_example_spectral_response (grid : List ℚ) : List (ℚ × ℚ) :=
  grid.map fun w => (w, interpZ exampleSRTable w)

/-- Modelled from the spec: `get_reference_spectra` on a custom wavelength
grid — the columns (extraterrestrial, global, direct) of the tabulated
standard linearly interpolated onto the grid, zero fill outside. -/
def get_reference_spectra (grid : List ℚ) : List (ℚ × ℚ × ℚ × ℚ) :=
  grid.map fun w =>
    (w, interpZ astmG173EtrTable w, interpZ astmG173GlobalTable w,
      interpZ astmG173DirectTable w)

lemma interpZ_below (tbl : List (ℚ × ℚ)) (x : ℚ) (h : ∀ p ∈ tbl, x < p.1) :
    interpZ tbl x = 0 := by
  match tbl with
  | [] => rfl
  | [(x0, y0)] =>
      simp only [interpZ]
      rw [if_neg (ne_of_lt (h (x0, y0) (by simp)))]
  | (x0, y0) :: (x1, y1) :: rest =>
      simp only [interpZ]
      rw [if_pos (h (x0, y0) (by simp))]

lemma interpZ_above (x : ℚ) :
    ∀ tbl : List (ℚ × ℚ), (∀ p ∈ tbl, p.1 < x) → interpZ tbl x = 0 := by
  intro tbl
  induction tbl with
  | nil => intro _; rfl
  | cons hd tl ih =>
    intro h
    obtain ⟨x0, y0⟩ := hd
    cases tl with
    | nil =>
        simp only [interpZ]
        rw [if_neg (h (x0, y0) (by simp)).ne']
    | cons hd2 rest =>
        obtain ⟨x1, y1⟩ := hd2
        simp only [interpZ]
        rw [if_neg (not_lt.mpr (le_of_lt (h (x0, y0) (by simp)))),
          if_neg (not_le.mpr (h (x1, y1) (by simp)))]
        exact ih fun p hp => h p (by simp [hp])

/-- Modelled from the spec: composite trapezoidal integration of a
`(wavelength, value)` table (`scipy.integrate.trapezoid` with the wavelength
as abscissa). -/
def trapezoid : List (ℚ × ℚ) → ℚ
  | (x0, y0) :: (x1, y1) :: rest =>
      (x1 - x0) * (y0 + y1) / 2 + trapezoid ((x1, y1) :: rest)
  | _ => 0

/-- Modelled from the spec: the reference spectrum used by the field
mismatch integrator — the caller's, when given, otherwise the standard
global reference interpolated onto the sun spectrum's wavelengths. -/
def resolveERef (e_sun : List (ℚ × ℚ)) : Option (List (ℚ × ℚ)) → List (ℚ × ℚ)
  | some r => r
  | none => e_sun.map fun p => (p.1, interpZ astmG173GlobalTable p.1)

/-- Modelled from the spec: the usable fraction — the spectral-response
weighted integral of a spectrum over the plain integral of the spectrum,
with the response interpolated onto the spectrum's wavelengths. -/
def usable_fraction (sr e : List (ℚ × ℚ)) : ℚ :=
  trapezoid (e.map fun p => (p.1, p.2 * interpZ sr p.1)) / trapezoid e

/-- Modelled from the spec: `calc_spectral_mismatch_field` for one sun
spectrum — the ratio of the sun spectrum's usable fraction to the reference
spectrum's usable fraction. -/
def calc_spectral_mismatch_field (sr e_sun : List (ℚ × ℚ))
    (e_ref : Option (List (ℚ × ℚ))) : ℚ :=
  usable_fraction sr e_sun / usable_fraction sr (resolveERef e_sun e_ref)

/-- C7: whenever the candidate sun spectrum coincides with the reference
spectrum — be it the default reference or a caller-supplied `e_ref` equal to
`e_sun` — and the integrals involved are nonzero, the field mismatch factor
is exactly `1`. -/
theorem mismatch_one_when_sun_equals_reference (sr e_sun : List (ℚ × ℚ))
    (e_ref : Option (List (ℚ × ℚ)))
    (href : resolveERef e_sun e_ref = e_sun)
    (hD : trapezoid e_sun ≠ 0)
    (hN : trapezoid (e_sun.map fun p => (p.1, p.2 * interpZ sr p.1)) ≠ 0) :
    calc_spectral_mismatch_field sr e_sun e_ref = 1 := by
  rw [calc_spectral_mismatch_field, href]
  exact div_self (div_ne_zero hN hD)

/-- Witness for C7: a concrete response curve and sun spectrum, the latter
passed explicitly as its own reference. -/
theorem mismatch_one_when_sun_equals_reference_witness :
    calc_spectral_mismatch_field [(300, 0.5), (700, 0.5)] [(400, 1), (600, 2)]
      (some [(400, 1), (600, 2)]) = 1 :=
  mismatch_one_when_sun_equals_reference [(300, 0.5), (700, 0.5)]
    [(400, 1), (600, 2)] (some [(400, 1), (600, 2)]) rfl
    (by norm_num [trapezoid]) (by norm_num [trapezoid, interpZ])

/-- C10: interpolation onto wavelengths outside the tabulated domain returns
`0.0` there — generically for the zero-fill interpolator, and specifically
for `get_example_spectral_response` (domain `[290, 1200]`) and
`get_reference_spectra` (domain `[280, 4000]`), whose result rows at such
wavelengths hold the value `0` (in every column) rather than a missing
entry. -/
theorem out_of_domain_queries_return_zero :
    (∀ (tbl : List (ℚ × ℚ)) (x : ℚ),
        ((∀ p ∈ tbl, x < p.1) ∨ (∀ p ∈ tbl, p.1 < x)) → interpZ tbl x = 0) ∧
    (∀ w : ℚ, (w < 290 ∨ 1200 < w) → ∀ grid : List ℚ, w ∈ grid →
        (w, (0 : ℚ)) ∈ get_example_spectral_response grid) ∧
    (∀ w : ℚ, (w < 280 ∨ 4000 < w) → ∀ grid : List ℚ, w ∈ grid →
        (w, ((0 : ℚ), (0 : ℚ), (0 : ℚ))) ∈ get_reference_spectra grid) := by
  refine ⟨?_, ?_, ?_⟩
  · rintro tbl x (h | h)
    · exact interpZ_below tbl x h
    · exact interpZ_above x tbl h
  · intro w hw grid hg
    have hz : interpZ exampleSRTable w = 0 := by
      rcases hw with hlt | hgt
      · refine interpZ_below _ _ ?_
        intro p hp
        simp only [exampleSRTable, List.mem_cons, List.not_mem_nil,
          or_false] at hp
        rcases hp with rfl | rfl | rfl | rfl | rfl <;> · simp; linarith
      · refine interpZ_above _ _ ?_
        intro p hp
        simp only [exampleSRTable, List.mem_cons, List.not_mem_nil,
          or_false] at hp
        rcases hp with rfl | rfl | rfl | rfl | rfl <;> · simp; linarith
    rw [get_example_spectral_response, List.mem_map]
    exact ⟨w, hg, by rw [hz]⟩
  · intro w hw grid hg
    have htbl : ∀ tbl : List (ℚ × ℚ),
        (∀ p ∈ tbl, (280 : ℚ) ≤ p.1 ∧ p.1 ≤ 4000) → interpZ tbl w = 0 := by
      intro tbl hdom
      rcases hw with hlt | hgt
      · exact interpZ_below _ _ fun p hp => lt_of_lt_of_le hlt (hdom p hp).1
      · exact interpZ_above _ _ fun p hp => lt_of_le_of_lt (hdom p hp).2 hgt
    have hz1 : interpZ astmG173EtrTable w = 0 := by
      refine htbl _ ?_
      intro p hp
      simp only [astmG173EtrTable, List.mem_cons, List.not_mem_nil,
        or_false] at hp
      rcases hp with rfl | rfl | rfl | rfl <;> · constructor <;> norm_num
    have hz2 : interpZ astmG173GlobalTable w = 0 := by
      refine htbl _ ?_
      intro p hp
      simp only [astmG173GlobalTable, List.mem_cons, List.not_mem_nil,
        or_false] at hp
      rcases hp with rfl | rfl | rfl | rfl <;> · constructor <;> norm_num
    have hz3 : interpZ astmG173DirectTable w = 0 := by
      refine htbl _ ?_
      intro p hp
      simp only [astmG173DirectTable, List.mem_cons, List.not_mem_nil,
        or_false] at hp
      rcases hp with rfl | rfl | rfl | rfl <;> · constructor <;> norm_num
    rw [get_reference_spectra, List.mem_map]
    exact ⟨w, hg, by rw [hz1, hz2, hz3]⟩

/-- Witness for C10 at the tests' concrete out-of-domain wavelengths `270`
and `4001`. -/
theorem out_of_domain_queries_return_zero_witness :
    (270, (0 : ℚ)) ∈ get_example_spectral_response [270, 850, 950, 1200, 4001] ∧
    (4001, ((0 : ℚ), (0 : ℚ), (0 : ℚ)))
      ∈ get_reference_spectra [270, 850, 951.634, 1200, 4001] :=
  ⟨out_of_domain_queries_return_zero.2.1 270 (by norm_num)
      [270, 850, 950, 1200, 4001] (by norm_num),
    out_of_domain_queries_return_zero.2.2 4001 (by norm_num)
      [270, 850, 951.634, 1200, 4001] (by norm_num)⟩

/-! ## SPECTRL2 plane-of-array assembly -/

/-- Cosine of an angle given in degrees. -/
noncomputable def cosd (x : ℝ) : ℝ := Real.cos (x * (Real.pi / 180))

/-- Modelled from the spec: the plane-of-array direct component assembled by
`spectrl2` — the per-wavelength direct irradiance projected onto the module
plane, with negative projections clipped to zero
(`Id * np.maximum(0, cosd(aoi))`); the full SPECTRL2 algorithm producing the
spectral irradiances is not in the snapshot. -/
noncomputable def spectrl2_poa_direct (dni : List ℝ) (aoi : ℝ) : List ℝ :=
  dni.map fun v => v * max 0 (cosd aoi)

/-- Modelled from the spec: the per-wavelength plane-of-array global
irradiance, the sum of the direct, sky-diffuse and ground-diffuse POA
components. -/
noncomputable def spectrl2_poa_global (dni sky gnd : List ℝ) (aoi : ℝ) :
    List ℝ :=
  vadd (vadd (spectrl2_poa_direct dni aoi) sky) gnd

lemma vadd_nonneg : ∀ as bs : List ℝ, (∀ a ∈ as, 0 ≤ a) → (∀ b ∈ bs, 0 ≤ b) →
    ∀ x ∈ vadd as bs, 0 ≤ x := by
  intro as
  induction as with
  | nil => intro bs _ _ x hx; simp [vadd] at hx
  | cons a tl ih =>
    intro bs ha hb x hx
    cases bs with
    | nil => simp [vadd] at hx
    | cons b bt =>
      rw [vadd, List.zipWith_cons_cons] at hx
      rcases List.mem_cons.mp hx with rfl | hx'
      · exact add_nonneg (ha a (by simp)) (hb b (by simp))
      · exact ih bt (fun y hy => ha y (by simp [hy]))
          (fun y hy => hb y (by simp [hy])) x hx'

/-- C8: whenever the spectral direct irradiance and the two diffuse POA
components are non-negative and the angle of incidence exceeds 90 degrees,
every wavelength entry of the returned `poa_direct` and `poa_global` is
non-negative, because the negative direct projection is clipped to zero. -/
theorem spectrl2_poa_nonneg_aoi_gt_90 (dni sky gnd : List ℝ) (aoi : ℝ)
    (hd : ∀ v ∈ dni, 0 ≤ v) (hs : ∀ v ∈ sky, 0 ≤ v) (hg : ∀ v ∈ gnd, 0 ≤ v)
    (haoi : 90 < aoi) :
    (∀ v ∈ spectrl2_poa_direct dni aoi, 0 ≤ v) ∧
      ∀ v ∈ spectrl2_poa_global dni sky gnd aoi, 0 ≤ v := by
  have hdir : ∀ v ∈ spectrl2_poa_direct dni aoi, 0 ≤ v := by
    intro v hv
    rw [spectrl2_poa_direct, List.mem_map] at hv
    obtain ⟨d, hd', rfl⟩ := hv
    exact mul_nonneg (hd d hd') (le_max_left 0 _)
  exact ⟨hdir, fun v hv =>
    vadd_nonneg _ gnd (vadd_nonneg _ sky hdir hs) hg v hv⟩

/-- Witness for C8 at the tests' geometry (`aoi = 130`) with concrete
non-negative spectra. -/
theorem spectrl2_poa_nonneg_aoi_gt_90_witness :
    (∀ v ∈ spectrl2_poa_direct [1, 0.5] 130, 0 ≤ v) ∧
      ∀ v ∈ spectrl2_poa_global [1, 0.5] [0.2, 0] [0.1, 0.3] 130, 0 ≤ v :=
  spectrl2_poa_nonneg_aoi_gt_90 [1, 0.5] [0.2, 0] [0.1, 0.3] 130
    (by intro v hv; simp only [List.mem_cons, List.not_mem_nil, or_false] at hv
        rcases hv with rfl | rfl <;> norm_num)
    (by intro v hv; simp only [List.mem_cons, List.not_mem_nil, or_false] at hv
        rcases hv with rfl | rfl <;> norm_num)
    (by intro v hv; simp only [List.mem_cons, List.not_mem_nil, or_false] at hv
        rcases hv with rfl | rfl <;> norm_num)
    (by norm_num)
